import Mathlib

/-!
Shallow embedding of `regador_automatico.ino` (Arduino soil-moisture
irrigation controller): moisture conversion, EEPROM-backed configuration,
serial command interpreter, and the three-state irrigation state machine.
Machine integers (`uint8_t`, `uint32_t`, `unsigned long`) are modelled as
`Nat` with explicit reduction modulo 256 / 2^32 where the hardware wraps;
the C `int`/`long` values are modelled as `Int`.  Effectful calls
(`EEPROM.put`, `digitalWrite`) are modelled by explicit state passing plus
a log of the write events they perform.
-/

namespace Regador

/-- Modulus of `uint32_t` / `unsigned long` arithmetic on the AVR target (2^32). -/
def U32 : Nat := 4294967296

/-- Calibration endpoint `ADC_HUMEDO` (source line 30). -/
def ADC_HUMEDO : Int := 275

/-- Calibration endpoint `ADC_SECO` (source line 31). -/
def ADC_SECO : Int := 615

/-- Default setpoint `SETPOINT_DEFAULT` (source line 25). -/
def SETPOINT_DEFAULT : Int := 35

/-- Default watering duration `RIEGO_DEFAULT_MS` (source line 26). -/
def RIEGO_DEFAULT_MS : Nat := 60000

/-- Default lockout duration `BLOQUEO_DEFAULT_MS` (source line 27). -/
def BLOQUEO_DEFAULT_MS : Nat := 7200000

/-- `humedadPorcentaje` (source lines 52-60).  In the interpolation branch both
operands of the C integer division are positive, where C's
truncation-toward-zero agrees with Lean's `Int` division. -/
def humedadPorcentaje (adc : Int) : Int :=
  if adc ≤ ADC_HUMEDO then 100
  else if adc ≥ ADC_SECO then 0
  else (ADC_SECO - adc) * 100 / (ADC_SECO - ADC_HUMEDO)

/-- The EEPROM contents, by the fixed layout of source lines 20-22: one byte
at offset 0 (setpoint) and two little-endian `uint32_t` fields at offsets
1-4 and 5-8.  Each field is modelled as the number it encodes; reads reduce
it modulo the field width, so arbitrary (for example never-written, all-0xFF)
contents are representable. -/
structure EEPROM where
  setpointB : Nat
  riegoMs : Nat
  bloqueoMs : Nat
deriving DecidableEq

/-- The in-memory configuration globals `setpoint`, `tiempoRiegoMs`,
`tiempoBloqueoMs` (source lines 33-35). -/
structure Config where
  setpoint : Int
  tiempoRiegoMs : Nat
  tiempoBloqueoMs : Nat
deriving DecidableEq

/-- `loadConfig` (source lines 80-92): reads each field, validates it, and
replaces an invalid value by its default in memory only.  The function only
calls `EEPROM.read` / `EEPROM.get`, so the storage component of the result
is returned unchanged (state-passing form of a read-only body). -/
def loadConfig (e : EEPROM) : Config × EEPROM :=
  let sp := e.setpointB % 256
  let r := e.riegoMs % U32
  let b := e.bloqueoMs % U32
  ({ setpoint := if sp ≤ 100 then (sp : Int) else SETPOINT_DEFAULT,
     tiempoRiegoMs := if r < 1000 ∨ r > 3600000 then RIEGO_DEFAULT_MS else r,
     tiempoBloqueoMs := if b < 1000 ∨ b > 86400000 then BLOQUEO_DEFAULT_MS else b },
   e)

/-- One durable (EEPROM) write event, tagged by the field written. -/
inductive WriteEv where
  | sp (v : Nat)
  | riego (v : Nat)
  | bloqueo (v : Nat)
deriving DecidableEq

/-- `saveSetpoint` (source lines 97-100), i.e. `EEPROM.update(EEPROM_SETPOINT, v)`:
truncates `v` to `uint8_t` and performs a durable write only when the byte
already stored differs.  At every call site `v` is in `[0,100]`. -/
def saveSetpoint (v : Int) (e : EEPROM) : EEPROM × List WriteEv :=
  let b := v.toNat % 256
  if e.setpointB % 256 = b then (e, [])
  else ({ e with setpointB := b }, [WriteEv.sp b])

/-- `saveRiego` (source lines 102-105) via `eepromUpdateU32` (source lines 70-75):
durable write of the `uint32_t` field at offset 1, skipped when the stored
value already equals the new one. -/
def saveRiego (v : Nat) (e : EEPROM) : EEPROM × List WriteEv :=
  let w := v % U32
  if e.riegoMs % U32 = w then (e, [])
  else ({ e with riegoMs := w }, [WriteEv.riego w])

/-- `saveBloqueo` (source lines 107-110) via `eepromUpdateU32`: durable write of
the `uint32_t` field at offset 5, skipped when unchanged. -/
def saveBloqueo (v : Nat) (e : EEPROM) : EEPROM × List WriteEv :=
  let w := v % U32
  if e.bloqueoMs % U32 = w then (e, [])
  else ({ e with bloqueoMs := w }, [WriteEv.bloqueo w])

/-- The configuration-owning part of the program state: the in-memory globals
together with the EEPROM behind them. -/
structure Sys where
  cfg : Config
  e : EEPROM
deriving DecidableEq

/-- Arduino `constrain(amt, low, high)` macro. -/
def constrain (x lo hi : Int) : Int :=
  if x < lo then lo else if x > hi then hi else x

/-- Branch `key == "set"` of `processCommand` (source lines 128-137): clamp,
then assign and persist only when the clamped value differs from the
in-memory `setpoint`. -/
def cmdSet (num0 : Int) (st : Sys) : Sys × List WriteEv :=
  let num := constrain num0 0 100
  if num ≠ st.cfg.setpoint then
    let s := saveSetpoint num st.e
    ({ cfg := { st.cfg with setpoint := num }, e := s.1 }, s.2)
  else (st, [])

/-- Branch `key == "riego"` of `processCommand` (source lines 139-147): for a
positive parsed value, `tiempoRiegoMs = (uint32_t)num * 1000UL`, a 32-bit
product that wraps modulo 2^32, persisted with no range check.  `num` is a
positive 32-bit `long`, so its cast to `uint32_t` is the identity. -/
def cmdRiego (num : Int) (st : Sys) : Sys × List WriteEv :=
  if num > 0 then
    let v := num.toNat * 1000 % U32
    let s := saveRiego v st.e
    ({ cfg := { st.cfg with tiempoRiegoMs := v }, e := s.1 }, s.2)
  else (st, [])

/-- Branch `key == "bloqueo"` of `processCommand` (source lines 149-157),
identical in shape to the `riego` branch. -/
def cmdBloqueo (num : Int) (st : Sys) : Sys × List WriteEv :=
  if num > 0 then
    let v := num.toNat * 1000 % U32
    let s := saveBloqueo v st.e
    ({ cfg := { st.cfg with tiempoBloqueoMs := v }, e := s.1 }, s.2)
  else (st, [])

/-- Predicate for the whitespace class of C `isspace`, used by Arduino
`String::trim`. -/
def isSpaceC (c : Char) : Bool :=
  c = ' ' ∨ c = '\t' ∨ c = '\n' ∨ c = '\r' ∨ c = Char.ofNat 11 ∨ c = Char.ofNat 12

/-- Arduino `String::trim`: strip leading and trailing whitespace. -/
def trimC (s : List Char) : List Char :=
  ((s.dropWhile isSpaceC).reverse.dropWhile isSpaceC).reverse

/-- Arduino `String::toLowerCase` on one ASCII character. -/
def toLowerC (c : Char) : Char :=
  if 'A' ≤ c ∧ c ≤ 'Z' then Char.ofNat (c.toNat + 32) else c

/-- Digit accumulator of `atol`: consume decimal digits, stop at the first
non-digit. -/
def digitsVal : List Char → Nat → Nat
  | c :: rest, acc =>
      if '0' ≤ c ∧ c ≤ '9' then digitsVal rest (acc * 10 + (c.toNat - 48)) else acc
  | [], acc => acc

/-- Arduino `String::toInt`, i.e. C `atol`: skip leading whitespace, optional
sign, then decimal digits up to the first non-digit; no digits yields 0.
Overflow of the C `long` is undefined behaviour and is not modelled. -/
def parseLong (s0 : List Char) : Int :=
  let s := s0.dropWhile isSpaceC
  match s with
  | '-' :: rest => -(digitsVal rest 0 : Int)
  | '+' :: rest => (digitsVal rest 0 : Int)
  | _ => (digitsVal s 0 : Int)

/-- `processCommand` (source lines 115-158): trim, lowercase, require `=`,
split into key and value, parse the value leniently, and dispatch to the
matching branch; unknown keys and lines without `=` do nothing. -/
def processCommand (s0 : List Char) (st : Sys) : Sys × List WriteEv :=
  let s := (trimC s0).map toLowerC
  match s.findIdx? (fun c => c = '=') with
  | none => (st, [])
  | some eq =>
    let key := s.take eq
    let val := s.drop (eq + 1)
    let num := parseLong val
    if key = "set".toList then cmdSet num st
    else if key = "riego".toList then cmdRiego num st
    else if key = "bloqueo".toList then cmdBloqueo num st
    else (st, [])

/-- The serial-drain loop at the top of `loop` (source lines 185-195): consume
every available character; `\n` or `\r` dispatches a non-empty accumulated
line to `processCommand` and clears the buffer; other characters are appended
while the buffer holds fewer than 32 characters and dropped otherwise.
Returns the updated state, the final buffer, and the dispatched lines in
order. -/
def serialDrain (input buf : List Char) (st : Sys) :
    Sys × List Char × List (List Char) :=
  match input with
  | [] => (st, buf, [])
  | c :: rest =>
    if c = '\n' ∨ c = '\r' then
      if buf.length ≠ 0 then
        let d := serialDrain rest [] (processCommand buf st).1
        (d.1, d.2.1, buf :: d.2.2)
      else serialDrain rest buf st
    else
      serialDrain rest (if buf.length < 32 then buf ++ [c] else buf) st

/-- The state enum `Estado` (source lines 40-44). -/
inductive Estado where
  | IDLE
  | RIEGO_ACTIVO
  | BLOQUEO
deriving DecidableEq

/-- Wraparound `unsigned long` subtraction `a - b` modulo 2^32, the meaning of
`ahora - tEstado` in the source. -/
def sub32 (a b : Nat) : Nat :=
  (a % U32 + U32 - b % U32) % U32

/-- The state-machine part of the program state: `estado`, `tEstado`
(source lines 46-47), and the level last written to the output pin
(`salida`, LOW after `setup`). -/
structure Control where
  estado : Estado
  tEstado : Nat
  salida : Bool
deriving DecidableEq

/-- The `switch (estado)` block of `loop` (source lines 202-227).  Each
`digitalWrite(SALIDA_PIN, ...)` is logged in order in the returned list and
updates `salida`; `IDLE` and `BLOQUEO` write LOW before testing anything,
while `RIEGO_ACTIVO` writes nothing unless the watering period has elapsed. -/
def stateStep (cfg : Config) (humedad : Int) (ahora : Nat) (c : Control) :
    Control × List Bool :=
  match c.estado with
  | Estado.IDLE =>
      if humedad < cfg.setpoint then
        ({ estado := Estado.RIEGO_ACTIVO, tEstado := ahora % U32, salida := true },
         [false, true])
      else
        ({ estado := Estado.IDLE, tEstado := c.tEstado, salida := false }, [false])
  | Estado.RIEGO_ACTIVO =>
      if sub32 ahora c.tEstado ≥ cfg.tiempoRiegoMs then
        ({ estado := Estado.BLOQUEO, tEstado := ahora % U32, salida := false },
         [false])
      else (c, [])
  | Estado.BLOQUEO =>
      if sub32 ahora c.tEstado ≥ cfg.tiempoBloqueoMs then
        ({ estado := Estado.IDLE, tEstado := c.tEstado, salida := false }, [false])
      else
        ({ estado := Estado.BLOQUEO, tEstado := c.tEstado, salida := false }, [false])

/-- The whole mutable state of the sketch: configuration and EEPROM, the
serial line buffer `inBuf` (source line 37), and the state machine. -/
structure MachineSt where
  sys : Sys
  inBuf : List Char
  ctl : Control
deriving DecidableEq

/-- One execution of `loop` (source lines 180-240): drain the serial input,
convert the ADC sample, run the state machine.  Inputs of the tick are the
bytes available on the serial port, the raw ADC reading, and `millis()`;
the returned list logs the actuator writes of the tick.  The status print
and the delay have no effect on the modelled state. -/
def tick (input : List Char) (adc : Int) (ahora : Nat) (m : MachineSt) :
    MachineSt × List Bool :=
  let d := serialDrain input m.inBuf m.sys
  let humedad := humedadPorcentaje adc
  let s := stateStep d.1.cfg humedad ahora m.ctl
  ({ sys := d.1, inBuf := d.2.1, ctl := s.1 }, s.2)

/-- The state right after `setup` (source lines 163-175): output driven LOW,
configuration loaded from the EEPROM, `estado = IDLE`, `tEstado = 0`,
empty line buffer. -/
def initialState (e : EEPROM) : MachineSt :=
  { sys := { cfg := (loadConfig e).1, e := (loadConfig e).2 },
    inBuf := [],
    ctl := { estado := Estado.IDLE, tEstado := 0, salida := false } }

/-- States reachable from startup over any EEPROM contents by any sequence of
ticks with arbitrary serial input, ADC readings, and clock values. -/
inductive Reachable : MachineSt → Prop where
  | init : ∀ e, Reachable (initialState e)
  | step : ∀ m input adc ahora, Reachable m → Reachable (tick input adc ahora m).1

/-- Helper: one `stateStep` preserves the invariant that the last actuator
write is HIGH exactly in state `RIEGO_ACTIVO`. -/
theorem stateStep_salida_inv (cfg : Config) (h : Int) (a : Nat) (c : Control)
    (hc : c.salida = true ↔ c.estado = Estado.RIEGO_ACTIVO) :
    ((stateStep cfg h a c).1.salida = true ↔
      (stateStep cfg h a c).1.estado = Estado.RIEGO_ACTIVO) := by
  obtain ⟨es, tE, sal⟩ := c
  cases es <;> simp only [stateStep] at hc ⊢ <;> split <;> simp_all

/-- C1: at the end of every tick (in every reachable state) the actuator
output is ON iff the state is `RIEGO_ACTIVO`; and in `IDLE` and `BLOQUEO`
the tick's first actuator write is unconditionally LOW. -/
theorem C1_actuator_iff_watering :
    (∀ m, Reachable m → (m.ctl.salida = true ↔ m.ctl.estado = Estado.RIEGO_ACTIVO)) ∧
    (∀ (cfg : Config) (h : Int) (a : Nat) (c : Control),
      c.estado ≠ Estado.RIEGO_ACTIVO →
      (stateStep cfg h a c).2.head? = some false) := by
  constructor
  · intro m hm
    induction hm with
    | init e => simp [initialState]
    | step m input adc ahora hr ih => exact stateStep_salida_inv _ _ _ _ ih
  · intro cfg h a c hc
    obtain ⟨es, tE, sal⟩ := c
    cases es <;> simp only [stateStep] at hc ⊢ <;> first
      | exact absurd rfl hc
      | (split <;> simp)

/-- Witness for C1 at the startup state and a concrete `IDLE` step. -/
theorem C1_actuator_iff_watering_witness :
    ((initialState ⟨0, 0, 0⟩).ctl.salida = true ↔
      (initialState ⟨0, 0, 0⟩).ctl.estado = Estado.RIEGO_ACTIVO) ∧
    (stateStep ⟨35, 60000, 7200000⟩ 50 7 ⟨Estado.IDLE, 0, false⟩).2.head? = some false :=
  ⟨C1_actuator_iff_watering.1 _ (Reachable.init _),
   C1_actuator_iff_watering.2 _ _ _ _ (by decide)⟩

/-- C2: from `IDLE` with setpoint 35 and moisture 20 one step enters
`RIEGO_ACTIVO` with the output ON and `tEstado` set to the current time;
once `now - tEstado` reaches `tiempoRiegoMs` a step writes LOW and enters
`BLOQUEO`, re-recording `tEstado`; once `now - tEstado` reaches
`tiempoBloqueoMs` a step returns to `IDLE`. -/
theorem C2_watering_cycle_scenario :
    ∀ (cfg : Config) (tE : Nat) (sal : Bool) (t1 t2 t3 : Nat) (h2 h3 : Int),
      cfg.setpoint = 35 →
      ((stateStep cfg 20 t1 ⟨Estado.IDLE, tE, sal⟩).1 =
          { estado := Estado.RIEGO_ACTIVO, tEstado := t1 % U32, salida := true } ∧
        (stateStep cfg 20 t1 ⟨Estado.IDLE, tE, sal⟩).2 = [false, true]) ∧
      (sub32 t2 (t1 % U32) ≥ cfg.tiempoRiegoMs →
        (stateStep cfg h2 t2 ⟨Estado.RIEGO_ACTIVO, t1 % U32, true⟩).1 =
          { estado := Estado.BLOQUEO, tEstado := t2 % U32, salida := false }) ∧
      (sub32 t3 (t2 % U32) ≥ cfg.tiempoBloqueoMs →
        (stateStep cfg h3 t3 ⟨Estado.BLOQUEO, t2 % U32, false⟩).1 =
          { estado := Estado.IDLE, tEstado := t2 % U32, salida := false }) := by
  intro cfg tE sal t1 t2 t3 h2 h3 hsp
  refine ⟨?_, fun hr => ?_, fun hb => ?_⟩
  · constructor <;> simp [stateStep, hsp]
  · simp [stateStep, hr]
  · simp [stateStep, hb]

/-- Witness for C2 with concrete durations and times. -/
theorem C2_watering_cycle_scenario_witness :
    ((stateStep ⟨35, 60000, 7200000⟩ 20 1000 ⟨Estado.IDLE, 0, false⟩).1 =
        { estado := Estado.RIEGO_ACTIVO, tEstado := 1000 % U32, salida := true } ∧
      (stateStep ⟨35, 60000, 7200000⟩ 20 1000 ⟨Estado.IDLE, 0, false⟩).2 = [false, true]) ∧
    ((stateStep ⟨35, 60000, 7200000⟩ 0 61000 ⟨Estado.RIEGO_ACTIVO, 1000 % U32, true⟩).1 =
        { estado := Estado.BLOQUEO, tEstado := 61000 % U32, salida := false }) ∧
    ((stateStep ⟨35, 60000, 7200000⟩ 0 7261000 ⟨Estado.BLOQUEO, 61000 % U32, false⟩).1 =
        { estado := Estado.IDLE, tEstado := 61000 % U32, salida := false }) := by
  obtain ⟨ha, hb, hc⟩ :=
    C2_watering_cycle_scenario ⟨35, 60000, 7200000⟩ 0 false 1000 61000 7261000 0 0 rfl
  exact ⟨ha, hb (by decide), hc (by decide)⟩

/-- C3: with the fixed calibration endpoints 275 and 615, the conversion
returns 100 at or below 275, 0 at or above 615, and the truncated linear
interpolation `(615 - raw) * 100 / 340` strictly between them (shown equal
to the corresponding truncating `Nat` division). -/
theorem C3_humedad_contract :
    ∀ adc : Int,
      (adc ≤ 275 → humedadPorcentaje adc = 100) ∧
      (adc ≥ 615 → humedadPorcentaje adc = 0) ∧
      (275 < adc → adc < 615 →
        humedadPorcentaje adc = (615 - adc) * 100 / 340 ∧
        humedadPorcentaje adc = (((615 - adc).toNat * 100 / 340 : Nat) : Int)) := by
  intro adc
  refine ⟨fun h => ?_, fun h => ?_, fun h1 h2 => ⟨?_, ?_⟩⟩
  · simp [humedadPorcentaje, ADC_HUMEDO, h]
  · have : ¬ (adc ≤ ADC_HUMEDO) := by unfold ADC_HUMEDO; omega
    simp [humedadPorcentaje, ADC_SECO, this, h]
  · have hA : ¬ (adc ≤ 275) := by omega
    have hB : ¬ (615 ≤ adc) := by omega
    simp [humedadPorcentaje, ADC_HUMEDO, ADC_SECO, hA, hB]
  · have hA : ¬ (adc ≤ 275) := by omega
    have hB : ¬ (615 ≤ adc) := by omega
    simp only [humedadPorcentaje, ADC_HUMEDO, ADC_SECO, hA, hB, if_false, ge_iff_le,
      if_neg hA, if_neg hB]
    have he : (615 - adc) = ((615 - adc).toNat : Int) := (Int.toNat_of_nonneg (by omega)).symm
    rw [he]
    norm_cast

/-- Witness for C3 at raw readings 100, 700 and 500. -/
theorem C3_humedad_contract_witness :
    humedadPorcentaje 100 = 100 ∧ humedadPorcentaje 700 = 0 ∧
    humedadPorcentaje 500 = (615 - 500) * 100 / 340 ∧
    humedadPorcentaje 500 = (((615 - (500 : Int)).toNat * 100 / 340 : Nat) : Int) :=
  ⟨(C3_humedad_contract 100).1 (by decide),
   (C3_humedad_contract 700).2.1 (by decide),
   ((C3_humedad_contract 500).2.2 (by decide) (by decide)).1,
   ((C3_humedad_contract 500).2.2 (by decide) (by decide)).2⟩

/-- C4 counterexample: one reachable tick processing the line `riego=4000`
leaves `tiempoRiegoMs = 4000000`, above the claimed upper bound 3600000, so
the in-range invariant does not hold in every reachable state. -/
theorem C4_counterexample :
    Reachable (tick ("riego=4000\n".toList) 0 0 (initialState ⟨35, 60000, 7200000⟩)).1 ∧
    (tick ("riego=4000\n".toList) 0 0 (initialState ⟨35, 60000, 7200000⟩)).1.sys.cfg.tiempoRiegoMs
      = 4000000 ∧
    ¬ (4000000 ≤ 3600000) :=
  ⟨Reachable.step _ _ _ _ (Reachable.init _), by decide, by decide⟩

/-- C4 amended: startup load does establish
`1000 ≤ tiempoRiegoMs ≤ 3600000`, and ticks without serial input preserve
`tiempoRiegoMs`; but a processed `riego=` command stores
`s * 1000 mod 2^32` with no range check, so reachable states can leave the
range. -/
theorem C4_amended :
    (∀ e : EEPROM,
      1000 ≤ (loadConfig e).1.tiempoRiegoMs ∧ (loadConfig e).1.tiempoRiegoMs ≤ 3600000) ∧
    (∀ (adc : Int) (ahora : Nat) (m : MachineSt),
      (tick [] adc ahora m).1.sys.cfg.tiempoRiegoMs = m.sys.cfg.tiempoRiegoMs) ∧
    (∀ (s : Int) (st : Sys), 0 < s →
      (cmdRiego s st).1.cfg.tiempoRiegoMs = s.toNat * 1000 % U32) := by
  refine ⟨fun e => ?_, fun adc ahora m => ?_, fun s st hs => ?_⟩
  · simp only [loadConfig, RIEGO_DEFAULT_MS, U32]
    constructor <;> split <;> omega
  · simp [tick, serialDrain]
  · simp [cmdRiego, hs]

/-- Witness for C4 amended at concrete EEPROM contents, tick, and command. -/
theorem C4_amended_witness :
    (1000 ≤ (loadConfig ⟨0, 0, 0⟩).1.tiempoRiegoMs ∧
      (loadConfig ⟨0, 0, 0⟩).1.tiempoRiegoMs ≤ 3600000) ∧
    (tick [] 0 0 (initialState ⟨0, 0, 0⟩)).1.sys.cfg.tiempoRiegoMs =
      (initialState ⟨0, 0, 0⟩).sys.cfg.tiempoRiegoMs ∧
    (cmdRiego 5 ⟨⟨35, 60000, 7200000⟩, ⟨35, 60000, 7200000⟩⟩).1.cfg.tiempoRiegoMs =
      (5 : Int).toNat * 1000 % U32 :=
  ⟨C4_amended.1 _, C4_amended.2.1 0 0 _, C4_amended.2.2 5 _ (by decide)⟩

/-- C5 counterexample: with the twelve characters of `set=1\nset=2\n`
buffered at the start of one tick, the drain loop dispatches two complete
lines to the interpreter in that single tick (and the tick's final setpoint
shows both were interpreted), refuting at most one line per tick. -/
theorem C5_counterexample :
    (serialDrain ("set=1\nset=2\n".toList) []
        ⟨⟨35, 60000, 7200000⟩, ⟨35, 60000, 7200000⟩⟩).2.2.length = 2 ∧
    ¬ (2 ≤ 1) ∧
    (tick ("set=1\nset=2\n".toList) 1000 0
        (initialState ⟨35, 60000, 7200000⟩)).1.sys.cfg.setpoint = 2 :=
  ⟨by decide, by decide, by decide⟩

/-- Helper: characters that are not line terminators are accumulated into the
buffer (one by one, under the 32-character capacity) without dispatching. -/
theorem serialDrain_accum (l : List Char) :
    ∀ (rest buf : List Char) (st : Sys),
      (∀ c ∈ l, ¬(c = '\n' ∨ c = '\r')) → buf.length + l.length ≤ 32 →
      serialDrain (l ++ rest) buf st = serialDrain rest (buf ++ l) st := by
  induction l with
  | nil => intro rest buf st _ _; simp
  | cons c l ih =>
      intro rest buf st hterm hlen
      have hc : ¬(c = '\n' ∨ c = '\r') := hterm c (List.mem_cons_self c l)
      have hb : buf.length < 32 := by
        simp only [List.length_cons] at hlen; omega
      simp only [List.cons_append, serialDrain, if_neg hc, if_pos hb, List.append_eq]
      rw [ih rest (buf ++ [c]) st (fun d hd => hterm d (List.mem_cons_of_mem _ hd))
        (by simp only [List.length_append, List.length_cons, List.length_nil] at hlen ⊢; omega)]
      simp

/-- Input built from a list of lines, each closed by a newline, as it would sit
in the serial receive buffer at the start of a tick. -/
def joinLines (ls : List (List Char)) : List Char :=
  ls.foldr (fun l acc => l ++ '\n' :: acc) []

/-- C5 amended: in one tick, the drain loop dispatches every complete
buffered line (nonempty, within the 32-character capacity,
terminator-free) to the interpreter — possibly several per tick, in order,
not at most one. -/
theorem C5_amended :
    ∀ (ls : List (List Char)) (st : Sys),
      (∀ l ∈ ls, l ≠ [] ∧ l.length ≤ 32 ∧ ∀ c ∈ l, ¬(c = '\n' ∨ c = '\r')) →
      (serialDrain (joinLines ls) [] st).2.2 = ls := by
  intro ls
  induction ls with
  | nil => intro st _; simp [joinLines, serialDrain]
  | cons l ls ih =>
      intro st hls
      obtain ⟨hne, hlen, hterm⟩ := hls l (List.mem_cons_self l ls)
      have hj : joinLines (l :: ls) = l ++ '\n' :: joinLines ls := rfl
      rw [hj, serialDrain_accum l ('\n' :: joinLines ls) [] st hterm (by simpa using hlen)]
      simp only [List.nil_append, serialDrain, if_pos (Or.inl rfl)]
      simp [hne, ih _ (fun l2 h2 => hls l2 (List.mem_cons_of_mem _ h2))]

/-- Witness for C5 amended: the two lines `a` and `b` are both dispatched. -/
theorem C5_amended_witness :
    (serialDrain (joinLines [['a'], ['b']]) []
        ⟨⟨35, 60000, 7200000⟩, ⟨35, 60000, 7200000⟩⟩).2.2 = [['a'], ['b']] :=
  C5_amended [['a'], ['b']] _ (by decide)

/-- C6 counterexample: after loading from an EEPROM whose setpoint byte is
255 (in-memory setpoint falls back to 35), the command `set=35` performs no
durable write and leaves the stored byte at 255, although the clamped value
35 differs from the stored byte — the code compares against the in-memory
setpoint first, not against storage. -/
theorem C6_counterexample :
    (cmdSet 35 ⟨(loadConfig ⟨255, 60000, 7200000⟩).1,
        (loadConfig ⟨255, 60000, 7200000⟩).2⟩).2 = [] ∧
    (cmdSet 35 ⟨(loadConfig ⟨255, 60000, 7200000⟩).1,
        (loadConfig ⟨255, 60000, 7200000⟩).2⟩).1.e.setpointB = 255 ∧
    constrain 35 0 100 = 35 ∧ ((255 : Nat) % 256 ≠ 35) :=
  ⟨by decide, by decide, by decide, by decide⟩

/-- C6 amended: the setter clamps to `[0,100]` and performs a durable write
iff the clamped value differs from the in-memory setpoint AND from the byte
currently stored; when the clamped value equals the stored byte (or the
in-memory value), persistent storage is left unchanged. -/
theorem C6_amended :
    ∀ (v : Int) (st : Sys),
      ((cmdSet v st).1.cfg.setpoint = constrain v 0 100) ∧
      ((cmdSet v st).2 ≠ [] ↔
        (constrain v 0 100 ≠ st.cfg.setpoint ∧
          (constrain v 0 100).toNat % 256 ≠ st.e.setpointB % 256)) ∧
      ((constrain v 0 100).toNat % 256 = st.e.setpointB % 256 →
        (cmdSet v st).1.e = st.e) := by
  intro v st
  obtain ⟨⟨sp, r, b⟩, ⟨eb, er, ebq⟩⟩ := st
  simp only [cmdSet, saveSetpoint]
  refine ⟨?_, ?_, ?_⟩ <;> split_ifs <;> simp_all <;> omega

/-- Witness for C6 amended: `set=150` clamps to a writing 100, and `set=35`
over agreeing memory and storage leaves the EEPROM untouched. -/
theorem C6_amended_witness :
    ((cmdSet 150 ⟨⟨35, 60000, 7200000⟩, ⟨35, 60000, 7200000⟩⟩).1.cfg.setpoint =
      constrain 150 0 100) ∧
    ((cmdSet 150 ⟨⟨35, 60000, 7200000⟩, ⟨35, 60000, 7200000⟩⟩).2 ≠ []) ∧
    ((cmdSet 35 ⟨⟨35, 60000, 7200000⟩, ⟨35, 60000, 7200000⟩⟩).1.e =
      ⟨35, 60000, 7200000⟩) :=
  ⟨(C6_amended 150 _).1,
   (C6_amended 150 _).2.1.mpr (by decide),
   (C6_amended 35 _).2.2 (by decide)⟩

/-- C7: for every `v` in `[0,100]` and any EEPROM contents, loading, running
the setter with `v`, and loading again in a fresh instance over the
resulting storage yields `setpoint = v`. -/
theorem C7_set_then_load_roundtrip :
    ∀ (v : Int), 0 ≤ v → v ≤ 100 → ∀ e : EEPROM,
      (loadConfig (cmdSet v ⟨(loadConfig e).1, (loadConfig e).2⟩).1.e).1.setpoint = v := by
  intro v h0 h1 e
  obtain ⟨sp0, r0, b0⟩ := e
  have hc : constrain v 0 100 = v := by
    simp only [constrain]
    split_ifs <;> omega
  simp only [loadConfig, cmdSet, saveSetpoint, hc]
  split_ifs <;> simp_all <;> omega

/-- Witness for C7 at `v = 50` over never-written storage (byte 255). -/
theorem C7_set_then_load_roundtrip_witness :
    (loadConfig (cmdSet 50 ⟨(loadConfig ⟨255, 0, 0⟩).1,
        (loadConfig ⟨255, 0, 0⟩).2⟩).1.e).1.setpoint = 50 :=
  C7_set_then_load_roundtrip 50 (by decide) (by decide) ⟨255, 0, 0⟩

/-- C8: loading over storage whose duration field is out of range yields the
documented default in memory (60000 for irrigation, 7200000 for lockout),
and the load returns the storage unchanged. -/
theorem C8_load_defaults :
    ∀ e : EEPROM,
      ((e.riegoMs % U32 < 1000 ∨ e.riegoMs % U32 > 3600000) →
        (loadConfig e).1.tiempoRiegoMs = 60000) ∧
      ((e.bloqueoMs % U32 < 1000 ∨ e.bloqueoMs % U32 > 86400000) →
        (loadConfig e).1.tiempoBloqueoMs = 7200000) ∧
      (loadConfig e).2 = e := by
  intro e
  refine ⟨fun h => ?_, fun h => ?_, rfl⟩
  · simp only [loadConfig, RIEGO_DEFAULT_MS, if_pos h]
  · simp only [loadConfig, BLOQUEO_DEFAULT_MS, if_pos h]

/-- Witness for C8 over storage holding 500 in both duration fields. -/
theorem C8_load_defaults_witness :
    (loadConfig ⟨0, 500, 500⟩).1.tiempoRiegoMs = 60000 ∧
    (loadConfig ⟨0, 500, 500⟩).1.tiempoBloqueoMs = 7200000 ∧
    (loadConfig ⟨0, 500, 500⟩).2 = ⟨0, 500, 500⟩ :=
  ⟨(C8_load_defaults _).1 (by decide),
   (C8_load_defaults _).2.1 (by decide),
   (C8_load_defaults _).2.2⟩

/-- C9: the elapsed-time comparison uses wraparound-safe modulo-2^32
subtraction: for true timestamps less than 2^32 apart, the wrapped
difference of the wrapped clocks equals the true difference, and the
`RIEGO_ACTIVO` and `BLOQUEO` steps leave those states exactly when the true
elapsed time reaches the configured duration, so a numerically wrapped
clock cannot stick the machine. -/
theorem C9_wraparound_elapsed :
    ∀ (tEnter tNow : Nat), tEnter ≤ tNow → tNow - tEnter < U32 →
      (sub32 (tNow % U32) (tEnter % U32) = tNow - tEnter) ∧
      ∀ (cfg : Config) (h : Int) (sal : Bool),
        ((stateStep cfg h tNow ⟨Estado.RIEGO_ACTIVO, tEnter % U32, sal⟩).1.estado =
            Estado.BLOQUEO ↔ cfg.tiempoRiegoMs ≤ tNow - tEnter) ∧
        ((stateStep cfg h tNow ⟨Estado.BLOQUEO, tEnter % U32, false⟩).1.estado =
            Estado.IDLE ↔ cfg.tiempoBloqueoMs ≤ tNow - tEnter) := by
  intro tEnter tNow hle hlt
  have hsub : sub32 tNow (tEnter % U32) = tNow - tEnter := by
    simp only [sub32, U32] at hlt ⊢
    omega
  refine ⟨?_, fun cfg h sal => ⟨?_, ?_⟩⟩
  · simp only [sub32, U32] at hlt ⊢
    omega
  · simp only [stateStep, hsub, ge_iff_le]
    split_ifs with hc <;> simp [hc]
  · simp only [stateStep, hsub, ge_iff_le]
    split_ifs with hc <;> simp [hc]

/-- Witness for C9 across the 2^32 boundary: entry 100 counts before the
clock wraps, check 100 counts after. -/
theorem C9_wraparound_elapsed_witness :
    (sub32 (4294967396 % U32) (4294967196 % U32) = 4294967396 - 4294967196) ∧
    (stateStep ⟨35, 150, 150⟩ 0 4294967396
        ⟨Estado.RIEGO_ACTIVO, 4294967196 % U32, true⟩).1.estado = Estado.BLOQUEO :=
  ⟨(C9_wraparound_elapsed 4294967196 4294967396 (by decide) (by decide)).1,
   ((C9_wraparound_elapsed 4294967196 4294967396 (by decide) (by decide)).2
      ⟨35, 150, 150⟩ 0 true).1.mpr (by decide)⟩

/-- C10: for every positive parsed value in a `riego=` or `bloqueo=`
command, the stored duration is `s * 1000` reduced modulo 2^32 with no
range check before persisting; at `s = 4294968` the product wraps to 704,
below the 1000 ms lower bound. -/
theorem C10_duration_wrap :
    (∀ (s : Int) (st : Sys), 0 < s →
      ((cmdRiego s st).1.cfg.tiempoRiegoMs = s.toNat * 1000 % U32 ∧
        (cmdRiego s st).1.e.riegoMs % U32 = s.toNat * 1000 % U32) ∧
      ((cmdBloqueo s st).1.cfg.tiempoBloqueoMs = s.toNat * 1000 % U32 ∧
        (cmdBloqueo s st).1.e.bloqueoMs % U32 = s.toNat * 1000 % U32)) ∧
    ((cmdRiego 4294968 ⟨⟨35, 60000, 7200000⟩, ⟨35, 60000, 7200000⟩⟩).1.cfg.tiempoRiegoMs
        = 704 ∧ 704 < 1000) := by
  refine ⟨fun s st hs => ⟨⟨?_, ?_⟩, ⟨?_, ?_⟩⟩, by decide, by decide⟩
  · simp [cmdRiego, hs]
  · simp only [cmdRiego, if_pos hs, saveRiego]
    split_ifs with he <;> simp only [U32] at he ⊢ <;> omega
  · simp [cmdBloqueo, hs]
  · simp only [cmdBloqueo, if_pos hs, saveBloqueo]
    split_ifs with he <;> simp only [U32] at he ⊢ <;> omega

/-- Witness for C10 at `s = 2` over concrete state. -/
theorem C10_duration_wrap_witness :
    ((cmdRiego 2 ⟨⟨35, 60000, 7200000⟩, ⟨35, 60000, 7200000⟩⟩).1.cfg.tiempoRiegoMs =
        (2 : Int).toNat * 1000 % U32 ∧
      (cmdRiego 2 ⟨⟨35, 60000, 7200000⟩, ⟨35, 60000, 7200000⟩⟩).1.e.riegoMs % U32 =
        (2 : Int).toNat * 1000 % U32) ∧
    ((cmdBloqueo 2 ⟨⟨35, 60000, 7200000⟩, ⟨35, 60000, 7200000⟩⟩).1.cfg.tiempoBloqueoMs =
        (2 : Int).toNat * 1000 % U32 ∧
      (cmdBloqueo 2 ⟨⟨35, 60000, 7200000⟩, ⟨35, 60000, 7200000⟩⟩).1.e.bloqueoMs % U32 =
        (2 : Int).toNat * 1000 % U32) :=
  C10_duration_wrap.1 2 _ (by decide)

end Regador
